import Mathlib

/-!
Verification development for the Eurostat job-vacancy reshaping scripts
(`scripts/gerar_grafico_vagas.py` and its twin `scripts/job_vacancy_sheet19.py`).

The scripts read a rectangular grid of spreadsheet cells, rebuild column
labels from a header row (empty header cells become `<previous>_flag`
columns), drop rows without a `geo` identifier, melt the value-series
columns into tidy `(geo, trimestre, taxa_vaga)` records, and plot the
records for a chosen set of countries, sorted by geo and by the position
of the quarter label in the original column order.

We embed the grid as a list of rows of `Cell`s; a cell is empty (pandas
NA), a text, or a number.  Machine floats in the source carry ordinary
decimal data, embedded here as rationals.
-/

/-- Cells of the raw spreadsheet grid: missing (pandas NA), textual, or numeric. -/
inductive Cell where
  | empty : Cell
  | text : String → Cell
  | num : ℚ → Cell
deriving DecidableEq, Repr

/-- Test mirroring `pd.isna` on a cell: only the missing cell is NA. -/
def Cell.isna : Cell → Bool
  | .empty => true
  | _ => false

/-- Text form of a cell, mirroring Python `str(value)` on a non-NA cell
(the numeric rendering is the model's canonical one). -/
def Cell.textForm : Cell → String
  | .empty => ""
  | .text s => s
  | .num q => toString q

/-- Interpretation of a run of characters as a natural number; fails unless
all characters are decimal digits (and the run is nonempty). -/
def digitsToNat : List Char → Option ℕ
  | [] => none
  | cs =>
    if cs.all Char.isDigit then
      some (cs.foldl (fun n c => 10 * n + (c.toNat - 48)) 0)
    else none

/-- Numeric interpretation of a string, mirroring the accepting behaviour of
`pd.to_numeric` on decimal literals: optional sign, digits, optional
fractional part.  Anything else (in particular the sentinel `":"`) fails. -/
def parseNum (s : String) : Option ℚ :=
  let cs := s.data
  let signed : Bool × List Char :=
    match cs with
    | '-' :: resto => (true, resto)
    | '+' :: resto => (false, resto)
    | _ => (false, cs)
  let inteiro := signed.2.takeWhile (fun c => c ≠ '.')
  let resto := signed.2.dropWhile (fun c => c ≠ '.')
  match resto with
  | [] => (digitsToNat inteiro).map (fun n => if signed.1 then -(n : ℚ) else (n : ℚ))
  | '.' :: frac =>
    match digitsToNat inteiro, digitsToNat frac with
    | some a, some b =>
      some (if signed.1 then -((a : ℚ) + (b : ℚ) / 10 ^ frac.length)
            else (a : ℚ) + (b : ℚ) / 10 ^ frac.length)
    | _, _ => none
  | _ => none

/-- Numeric coercion of a cell, mirroring `pd.to_numeric(…, errors="coerce")`
followed by `dropna`: NA stays missing, numbers pass through, text is parsed. -/
def paraNumero : Cell → Option ℚ
  | .empty => none
  | .num q => some q
  | .text s => parseNum s

/-- Replacement of the Eurostat sentinel, mirroring `.replace({":": pd.NA})`:
a cell holding exactly the text `":"` becomes NA, all others are unchanged. -/
def substituirSentinela (c : Cell) : Cell :=
  if c = .text ":" then .empty else c

/-- Label propagation for the columns after column 0, carrying the label most
recently appended (`colunas[-1]` in the source): an NA header cell yields
`<previous>_flag`, any other cell yields its text form. -/
def montarResto (anterior : String) : List Cell → List String
  | [] => []
  | valor :: resto =>
    let rotulo := if valor.isna then anterior ++ "_flag" else valor.textForm
    rotulo :: montarResto rotulo resto

/-- Embedding of `montar_nomes_colunas` / `_build_columns`: column 0 is always
labelled `"geo"` (whatever its header cell holds); each later column is
labelled by its header cell's text form, or by the previous derived label
suffixed with `_flag` when the header cell is NA. -/
def montar_nomes_colunas : List Cell → List String
  | [] => []
  | _ :: resto => "geo" :: montarResto "geo" resto

/-- Tidy record produced by the loader: one `(geo, trimestre, taxa_vaga)`
observation.  `geo` keeps the raw (sentinel-replaced) cell, as pandas does. -/
structure TidyRecord where
  geo : Cell
  trimestre : String
  taxa_vaga : ℚ
deriving DecidableEq, Repr

/-- Failures of the loader: the header row index is out of the grid's row
bounds (pandas `IndexError` on `iloc`); the grid has no columns at all so
the `"geo"` column is missing (pandas `KeyError`); or the value-column
labels contain duplicates, so the `pd.Categorical(…, categories=…)`
construction — which runs before the load returns — raises its
`ValueError` (Categorical categories must be unique). -/
inductive LoadError where
  | cabecalhoForaDosLimites : LoadError
  | colunaGeoAusente : LoadError
  | categoriasDuplicadas : LoadError
deriving DecidableEq, Repr

/-- Embedding of Python `str.endswith`: a character-level suffix test. -/
def terminaCom (s sufixo : String) : Bool :=
  sufixo.data.isSuffixOf s.data

/-- Predicate of the value-series selection (source line
`[col for col in colunas if col != "geo" and not col.endswith("_flag")]`):
the label is neither `"geo"` nor ends in `"_flag"`. -/
def rotuloValor (c : String) : Bool :=
  c ≠ "geo" && !(terminaCom c "_flag")

/-- Value-series columns: the enumerated columns whose derived label passes
`rotuloValor`, paired with the column position used by the (label-based)
column selection. -/
def colunasValor (colunas : List String) : List (ℕ × String) :=
  colunas.enum.filter (fun p => rotuloValor p.2)

/-- Record extraction for one value column `(posição, rótulo)` from the kept
data rows: melt produces one row per (data row, column), sentinel cells are
replaced by NA, values are coerced to numbers and missing results dropped. -/
def derreterColuna (dados : List (List Cell)) (p : ℕ × String) : List TidyRecord :=
  dados.filterMap (fun linha =>
    (paraNumero (substituirSentinela (linha.getD p.1 .empty))).map (fun q =>
      { geo := substituirSentinela (linha.getD 0 .empty)
        trimestre := p.2
        taxa_vaga := q }))

/-- Data region of the grid: the rows from `linha_inicio_dados` on, with the
rows whose `geo` cell (column 0) is NA dropped
(source line `dados = dados[dados["geo"].notna()]`). -/
def dadosMantidos (bruto : List (List Cell)) (linha_inicio_dados : ℕ) : List (List Cell) :=
  (bruto.drop linha_inicio_dados).filter (fun linha => !(linha.getD 0 .empty).isna)

/-- Optional area annotation read from cell (6, 2) of the raw grid (source:
`bruto.iloc[6, 2]` guarded by try/except and `pd.notna`): `none` when the
cell is out of bounds or NA, its text form otherwise. -/
def areaTrabalho (bruto : List (List Cell)) : Option String :=
  match bruto[6]? with
  | some linha =>
    match linha[2]? with
    | some celula => if celula.isna then none else some celula.textForm
    | none => none
  | none => none

/-- Embedding of `carregar_tabela_vagas` / `load_sheet19_table`: read the
header row, derive column labels, slice the data region, drop rows whose
`geo` cell is NA, select the value-series columns, replace the sentinel,
melt to long form, coerce to numbers and drop failures.  Returns the tidy
records, the period order (value-column labels in original order) and the
optional area annotation from cell (6, 2).  An out-of-bounds header row is
the pandas `IndexError` from `iloc`; a grid with no columns at all loses the
`"geo"` column and is the pandas `KeyError`; duplicate value-column labels
are the `ValueError` raised by `pd.Categorical(…, categories=colunas_valor,
ordered=True)` — in the source that check runs after the melt, but it
depends only on the labels and fires before the function returns, so it is
embedded as a guard on the same condition. -/
def carregar_tabela_vagas (bruto : List (List Cell)) (linha_cabecalho linha_inicio_dados : ℕ) :
    Except LoadError (List TidyRecord × List String × Option String) :=
  match bruto[linha_cabecalho]? with
  | none => .error .cabecalhoForaDosLimites
  | some cabecalho =>
    if (montar_nomes_colunas cabecalho).isEmpty then .error .colunaGeoAusente
    else if ((colunasValor (montar_nomes_colunas cabecalho)).map Prod.snd).Nodup then
      .ok ((colunasValor (montar_nomes_colunas cabecalho)).flatMap
             (derreterColuna (dadosMantidos bruto linha_inicio_dados)),
           (colunasValor (montar_nomes_colunas cabecalho)).map Prod.snd,
           areaTrabalho bruto)
    else .error .categoriasDuplicadas

/-- Failure of the renderer: the country filter selected no rows
(`ValueError("Nenhuma linha encontrada para os paises informados.")`,
the spec's `EmptySelectionError`).  Raised before any file is touched. -/
inductive RenderError where
  | nenhumaLinhaEncontrada : RenderError
deriving DecidableEq, Repr

/-- Code-point comparison of two character sequences, the order Python uses on
the string values of the `geo` column. -/
def charListLt : List Char → List Char → Bool
  | [], [] => false
  | [], _ :: _ => true
  | _ :: _, [] => false
  | c :: cs, d :: ds => if c < d then true else if d < c then false else charListLt cs ds

/-- Comparison driving `sort_values(["geo", "trimestre"])`: lexicographic on
the geo value and then on the categorical code of the quarter, which is the
index of the quarter label in the period order. -/
def recordeLe (ordem : List String) (r1 r2 : TidyRecord) : Bool :=
  charListLt r1.geo.textForm.data r2.geo.textForm.data ||
    (decide (r1.geo.textForm = r2.geo.textForm) &&
      decide (ordem.indexOf r1.trimestre ≤ ordem.indexOf r2.trimestre))

/-- Embedding of `plotar_taxa_vagas` / `plot_job_vacancies` up to the drawing
calls: filter the tidy records to the requested countries, fail when nothing
remains (before any directory or file is created), and otherwise sort by
(geo, quarter-position) — the record list handed to the plotting loop.
`sort_values` on (string, categorical-code) keys is pandas' stable lexsort;
it is embedded as a stable sort by the same key. -/
def plotar_taxa_vagas (dados_arrumados : List TidyRecord) (ordem_trimestres : List String)
    (paises : List String) : Except RenderError (List TidyRecord) :=
  let recorte := dados_arrumados.filter
    (fun r => paises.any (fun p => decide (r.geo = .text p)))
  if recorte.isEmpty then .error .nenhumaLinhaEncontrada
  else .ok (recorte.insertionSort (fun r1 r2 => recordeLe ordem_trimestres r1 r2 = true))

/-- Wide-form lookup for the round-trip property: the value of the first tidy
record keyed on the given (entity, period) pair. -/
def rePivot (registros : List TidyRecord) (g : Cell) (p : String) : Option ℚ :=
  (registros.find? (fun r => decide (r.geo = g) && decide (r.trimestre = p))).map
    (fun r => r.taxa_vaga)

/-- Specialisation in `job_vacancy_sheet19.py`: header fixed at row 10, data
starting at row 12. -/
def load_sheet19_table (raw : List (List Cell)) :
    Except LoadError (List TidyRecord × List String × Option String) :=
  carregar_tabela_vagas raw 10 12

/-- Grid of the spec's worked example: header `["geo", "2022-Q1", NA,
"2022-Q2", NA]`, one data row `["Spain", 4.1, "u", ":", "u"]`. -/
def grelhaExemplo : List (List Cell) :=
  [[.text "geo", .text "2022-Q1", .empty, .text "2022-Q2", .empty],
   [.text "Spain", .num (41 / 10), .text "u", .text ":", .text "u"]]

/-- Two-country, two-quarter grid exercising the melt order. -/
def grelhaDoisPaises : List (List Cell) :=
  [[.text "g", .text "P1", .text "P2"],
   [.text "A", .num 1, .num 2],
   [.text "B", .num 3, .num 4]]

/-- Grid with only the identifier column and no value series. -/
def grelhaUmaColuna : List (List Cell) :=
  [[.text "g"], [.text "A"]]

/-- Grid whose two value columns carry the same header label, the input on
which the source raises at the `pd.Categorical` construction. -/
def grelhaDuplicada : List (List Cell) :=
  [[.text "geo", .text "P1", .text "P1"],
   [.text "A", .num 1, .num 2]]

/-- Grid whose third header cell is nonempty text that itself ends in
`_flag`. -/
def grelhaRotuloFlag : List (List Cell) :=
  [[.text "g", .text "P1", .text "extra_flag"],
   [.text "A", .num 1, .num 2]]

/-- Header row of the spec's §8 propagation pattern
[nonempty, empty, empty, nonempty, empty]. -/
def cabecalhoPadrao : List Cell :=
  [.text "id", .empty, .empty, .text "label2", .empty]

/-- Default record used for positional indexing in order statements. -/
def recordePadrao : TidyRecord :=
  ⟨.empty, "", 0⟩

/-- Row order asserted by the spec for the written CSV (`to_csv` writes the
tidy records in list order): entity-major — all records of one entity
contiguous — and PeriodOrder-minor within an entity. -/
def OrdemEntidadePeriodo (registros : List TidyRecord) (ordem : List String) : Prop :=
  (∀ k, k < registros.length → ∀ j, j < k → ∀ i, i < j →
    ((registros.getD i recordePadrao).geo = (registros.getD k recordePadrao).geo →
     (registros.getD j recordePadrao).geo = (registros.getD i recordePadrao).geo)) ∧
  List.Pairwise (fun r1 r2 => r1.geo = r2.geo →
    ordem.indexOf r1.trimestre ≤ ordem.indexOf r2.trimestre) registros

/-! ### Properties of the derived column labels -/

theorem montarResto_length (anterior : String) (resto : List Cell) :
    (montarResto anterior resto).length = resto.length := by
  induction resto generalizing anterior with
  | nil => rfl
  | cons c resto ih => simp [montarResto, ih]

theorem montar_nomes_colunas_length (cabecalho : List Cell) :
    (montar_nomes_colunas cabecalho).length = cabecalho.length := by
  cases cabecalho with
  | nil => rfl
  | cons c resto => simp [montar_nomes_colunas, montarResto_length]

theorem montarResto_getD (anterior : String) (resto : List Cell) (j : ℕ)
    (hj : j < resto.length) :
    (montarResto anterior resto).getD j "" =
      (if (resto.getD j .empty).isna
       then (anterior :: montarResto anterior resto).getD j "" ++ "_flag"
       else (resto.getD j .empty).textForm) := by
  induction resto generalizing anterior j with
  | nil => simp at hj
  | cons c resto ih =>
    cases j with
    | zero => simp [montarResto]
    | succ j =>
      have hj2 : j < resto.length := by simpa using hj
      simpa [montarResto] using ih (if c.isna then anterior ++ "_flag" else c.textForm) j hj2

theorem montar_nomes_colunas_getD_succ (cabecalho : List Cell) (j : ℕ)
    (hj : j + 1 < cabecalho.length) :
    (montar_nomes_colunas cabecalho).getD (j + 1) "" =
      (if (cabecalho.getD (j + 1) .empty).isna
       then (montar_nomes_colunas cabecalho).getD j "" ++ "_flag"
       else (cabecalho.getD (j + 1) .empty).textForm) := by
  cases cabecalho with
  | nil => simp at hj
  | cons c resto =>
    have hj2 : j < resto.length := by simpa using hj
    simpa [montar_nomes_colunas] using montarResto_getD "geo" resto j hj2

/-- C1: for every nonempty header row, the derived column labels follow the
left-to-right fold of the source: the list has one label per header cell,
column 0 is always labelled `"geo"` whatever its cell holds, every later
column with an NA header cell receives the immediately preceding derived
label (original or already-suffixed) with `"_flag"` appended, and every
later column with a non-NA header cell receives that cell's text form. -/
theorem derivacao_rotulos_colunas (cabecalho : List Cell) (h : cabecalho ≠ []) :
    (montar_nomes_colunas cabecalho).length = cabecalho.length ∧
    (montar_nomes_colunas cabecalho).getD 0 "" = "geo" ∧
    ∀ j, j + 1 < cabecalho.length →
      (montar_nomes_colunas cabecalho).getD (j + 1) "" =
        (if (cabecalho.getD (j + 1) .empty).isna
         then (montar_nomes_colunas cabecalho).getD j "" ++ "_flag"
         else (cabecalho.getD (j + 1) .empty).textForm) := by
  refine ⟨montar_nomes_colunas_length _, ?_, fun j hj => montar_nomes_colunas_getD_succ _ j hj⟩
  cases cabecalho with
  | nil => exact absurd rfl h
  | cons c resto => rfl

/-- Witness for C1 at the spec's §8 header pattern
[nonempty, empty, empty, nonempty, empty]. -/
theorem derivacao_rotulos_colunas_witness :
    cabecalhoPadrao ≠ [] ∧
    ((montar_nomes_colunas cabecalhoPadrao).length = cabecalhoPadrao.length ∧
     (montar_nomes_colunas cabecalhoPadrao).getD 0 "" = "geo" ∧
     ∀ j, j + 1 < cabecalhoPadrao.length →
       (montar_nomes_colunas cabecalhoPadrao).getD (j + 1) "" =
         (if (cabecalhoPadrao.getD (j + 1) .empty).isna
          then (montar_nomes_colunas cabecalhoPadrao).getD j "" ++ "_flag"
          else (cabecalhoPadrao.getD (j + 1) .empty).textForm)) :=
  ⟨by decide, derivacao_rotulos_colunas cabecalhoPadrao (by decide)⟩

/-! ### Inversion of a successful load -/

theorem carregar_ok_inv {bruto : List (List Cell)} {lc ld : ℕ}
    {registros : List TidyRecord} {ordem : List String} {area : Option String}
    (h : carregar_tabela_vagas bruto lc ld = .ok (registros, ordem, area)) :
    ∃ cabecalho, bruto[lc]? = some cabecalho ∧
      montar_nomes_colunas cabecalho ≠ [] ∧
      ((colunasValor (montar_nomes_colunas cabecalho)).map Prod.snd).Nodup ∧
      registros = (colunasValor (montar_nomes_colunas cabecalho)).flatMap
        (derreterColuna (dadosMantidos bruto ld)) ∧
      ordem = (colunasValor (montar_nomes_colunas cabecalho)).map Prod.snd := by
  unfold carregar_tabela_vagas at h
  split at h
  · exact absurd h (by simp)
  · rename_i cabecalho heq
    split at h
    · exact absurd h (by simp)
    · rename_i hvazio
      split at h
      · rename_i hnodup
        injection h with h1
        refine ⟨cabecalho, heq, by simpa [List.isEmpty_iff] using hvazio, hnodup, ?_, ?_⟩
        · exact (congrArg Prod.fst h1).symm
        · exact (congrArg (fun q => q.2.1) h1).symm
      · exact absurd h (by simp)

/-! ### The period order -/

theorem map_snd_filter_enumFrom (p : String → Bool) (n : ℕ) (l : List String) :
    ((List.enumFrom n l).filter (fun q => p q.2)).map Prod.snd = l.filter p := by
  induction l generalizing n with
  | nil => rfl
  | cons a l ih =>
    by_cases h : p a <;> simp [List.enumFrom, List.filter_cons, h, ih]

theorem colunasValor_map_snd (colunas : List String) :
    (colunasValor colunas).map Prod.snd = colunas.filter rotuloValor := by
  simpa [colunasValor, List.enum_eq_enumFrom] using
    map_snd_filter_enumFrom rotuloValor 0 colunas

/-- C3: the period order returned by a successful load is exactly the
subsequence of derived header labels that are neither the identifier label
`"geo"` nor end in `"_flag"`, in the original left-to-right column order,
and its length is the number of such labels. -/
theorem ordem_periodos_spec {bruto : List (List Cell)} {lc ld : ℕ}
    {registros : List TidyRecord} {ordem : List String} {area : Option String}
    {cabecalho : List Cell}
    (hok : carregar_tabela_vagas bruto lc ld = .ok (registros, ordem, area))
    (hcab : bruto[lc]? = some cabecalho) :
    ordem = (montar_nomes_colunas cabecalho).filter rotuloValor ∧
    ordem.length = (montar_nomes_colunas cabecalho).countP rotuloValor := by
  obtain ⟨cab, hcab2, -, -, -, hord⟩ := carregar_ok_inv hok
  rw [hcab2] at hcab
  injection hcab with hcab
  subst hcab
  subst hord
  refine ⟨colunasValor_map_snd _, ?_⟩
  rw [colunasValor_map_snd, List.countP_eq_length_filter]

/-- Witness for C3 at the spec's worked-example grid. -/
theorem ordem_periodos_spec_witness :
    carregar_tabela_vagas grelhaExemplo 0 1 =
      .ok ([⟨.text "Spain", "2022-Q1", 41 / 10⟩], ["2022-Q1", "2022-Q2"], none) ∧
    grelhaExemplo[0]? = some [.text "geo", .text "2022-Q1", .empty, .text "2022-Q2", .empty] ∧
    (["2022-Q1", "2022-Q2"] =
        (montar_nomes_colunas
          [.text "geo", .text "2022-Q1", .empty, .text "2022-Q2", .empty]).filter rotuloValor ∧
      (["2022-Q1", "2022-Q2"] : List String).length =
        (montar_nomes_colunas
          [.text "geo", .text "2022-Q1", .empty, .text "2022-Q2", .empty]).countP rotuloValor) :=
  ⟨rfl, rfl,
    @ordem_periodos_spec grelhaExemplo 0 1 [⟨.text "Spain", "2022-Q1", 41 / 10⟩]
      ["2022-Q1", "2022-Q2"] none
      [.text "geo", .text "2022-Q1", .empty, .text "2022-Q2", .empty] rfl rfl⟩

/-! ### Provenance of tidy records -/

theorem mem_derreterColuna {dados : List (List Cell)} {p : ℕ × String} {r : TidyRecord} :
    r ∈ derreterColuna dados p ↔
      ∃ linha ∈ dados,
        paraNumero (substituirSentinela (linha.getD p.1 .empty)) = some r.taxa_vaga ∧
        r.geo = substituirSentinela (linha.getD 0 .empty) ∧ r.trimestre = p.2 := by
  simp only [derreterColuna, List.mem_filterMap, Option.map_eq_some']
  constructor
  · rintro ⟨linha, hl, q, hq, hr⟩
    subst hr
    exact ⟨linha, hl, hq, rfl, rfl⟩
  · rintro ⟨linha, hl, hq, hg, ht⟩
    refine ⟨linha, hl, r.taxa_vaga, hq, ?_⟩
    cases r
    simp_all

theorem paraNumero_substituirSentinela_eq_some {c : Cell} {q : ℚ}
    (h : paraNumero (substituirSentinela c) = some q) :
    c ≠ .text ":" ∧ paraNumero c = some q := by
  by_cases hc : c = .text ":"
  · subst hc
    simp [substituirSentinela, paraNumero] at h
  · rw [substituirSentinela, if_neg hc] at h
    exact ⟨hc, h⟩

theorem paraNumero_substituirSentinela_of_bad {c : Cell}
    (h : c = .text ":" ∨ paraNumero c = none) :
    paraNumero (substituirSentinela c) = none := by
  rcases h with h | h
  · subst h
    rfl
  · by_cases hc : c = .text ":"
    · subst hc
      rfl
    · rw [substituirSentinela, if_neg hc]
      exact h

/-- Key-uniqueness of records: when the sentinel-replaced entity cells of the
kept rows are pairwise distinct and the value-column labels are pairwise
distinct, a record matching the key of a given (row, value column) carries
exactly that cell's coerced value. -/
theorem registro_chave_determina {dados : List (List Cell)} {cv : List (ℕ × String)}
    (hgeo : (dados.map (fun linha => substituirSentinela (linha.getD 0 .empty))).Nodup)
    (hord : (cv.map Prod.snd).Nodup)
    {linha : List Cell} (hl : linha ∈ dados) {p : ℕ × String} (hp : p ∈ cv)
    {r : TidyRecord} (hr : r ∈ cv.flatMap (derreterColuna dados))
    (hg : r.geo = substituirSentinela (linha.getD 0 .empty))
    (ht : r.trimestre = p.2) :
    paraNumero (substituirSentinela (linha.getD p.1 .empty)) = some r.taxa_vaga := by
  rw [List.mem_flatMap] at hr
  obtain ⟨p2, hp2, hr⟩ := hr
  rw [mem_derreterColuna] at hr
  obtain ⟨linha2, hl2, hq2, hg2, ht2⟩ := hr
  have hpeq : p2 = p := List.inj_on_of_nodup_map hord hp2 hp (by rw [← ht2, ht])
  have hleq : linha2 = linha := List.inj_on_of_nodup_map hgeo hl2 hl (by rw [← hg2, hg])
  subst hpeq
  subst hleq
  exact hq2

/-- C4: every record of a successful load comes from a data row (at or after
the data start) whose `geo` cell is not NA: rows with a missing identifier
are dropped before reshaping and contribute nothing to the output. -/
theorem registros_geo_presente {bruto : List (List Cell)} {lc ld : ℕ}
    {registros : List TidyRecord} {ordem : List String} {area : Option String}
    (hok : carregar_tabela_vagas bruto lc ld = .ok (registros, ordem, area)) :
    ∀ r ∈ registros, ∃ linha ∈ bruto.drop ld,
      (linha.getD 0 .empty).isna = false ∧
      r.geo = substituirSentinela (linha.getD 0 .empty) := by
  obtain ⟨cab, -, -, -, hreg, -⟩ := carregar_ok_inv hok
  subst hreg
  intro r hr
  rw [List.mem_flatMap] at hr
  obtain ⟨p, hp, hr⟩ := hr
  rw [mem_derreterColuna] at hr
  obtain ⟨linha, hl, -, hg, -⟩ := hr
  rw [dadosMantidos, List.mem_filter] at hl
  exact ⟨linha, hl.1, by simpa using hl.2, hg⟩

/-- Witness for C4 at the spec's worked-example grid. -/
theorem registros_geo_presente_witness :
    carregar_tabela_vagas grelhaExemplo 0 1 =
      .ok ([⟨.text "Spain", "2022-Q1", 41 / 10⟩], ["2022-Q1", "2022-Q2"], none) ∧
    (∀ r ∈ [(⟨.text "Spain", "2022-Q1", 41 / 10⟩ : TidyRecord)],
      ∃ linha ∈ grelhaExemplo.drop 1,
        (linha.getD 0 .empty).isna = false ∧
        r.geo = substituirSentinela (linha.getD 0 .empty)) :=
  ⟨rfl,
    @registros_geo_presente grelhaExemplo 0 1
      [⟨.text "Spain", "2022-Q1", 41 / 10⟩] ["2022-Q1", "2022-Q2"] none rfl⟩

/-- C2: every record of a successful load carries a genuine number: it stems
from a kept data row and a value column whose cell is not the sentinel `":"`
and coerces to exactly that number.  Moreover, for well-keyed grids (the
sentinel-replaced entity cells of the kept rows pairwise distinct, the
value-column labels pairwise distinct), a value-series cell that is the
sentinel or fails numeric coercion leaves the corresponding
(entity, period) pair absent from the output — no record with that key
exists, with a null, a placeholder or otherwise. -/
theorem valores_numericos_spec {bruto : List (List Cell)} {lc ld : ℕ}
    {registros : List TidyRecord} {ordem : List String} {area : Option String}
    {cabecalho : List Cell}
    (hok : carregar_tabela_vagas bruto lc ld = .ok (registros, ordem, area))
    (hcab : bruto[lc]? = some cabecalho)
    (hgeo : ((dadosMantidos bruto ld).map
      (fun linha => substituirSentinela (linha.getD 0 .empty))).Nodup)
    (hord : ordem.Nodup) :
    (∀ r ∈ registros, ∃ linha ∈ dadosMantidos bruto ld,
        ∃ p ∈ colunasValor (montar_nomes_colunas cabecalho),
          linha.getD p.1 .empty ≠ .text ":" ∧
          paraNumero (linha.getD p.1 .empty) = some r.taxa_vaga ∧
          r.geo = substituirSentinela (linha.getD 0 .empty) ∧ r.trimestre = p.2) ∧
    (∀ linha ∈ dadosMantidos bruto ld, ∀ p ∈ colunasValor (montar_nomes_colunas cabecalho),
        (linha.getD p.1 .empty = .text ":" ∨ paraNumero (linha.getD p.1 .empty) = none) →
        ∀ r ∈ registros,
          ¬(r.geo = substituirSentinela (linha.getD 0 .empty) ∧ r.trimestre = p.2)) := by
  obtain ⟨cab, hcab2, -, -, hreg, hordEq⟩ := carregar_ok_inv hok
  rw [hcab2] at hcab
  injection hcab with hcab
  subst hcab
  constructor
  · intro r hr
    rw [hreg, List.mem_flatMap] at hr
    obtain ⟨p, hp, hr⟩ := hr
    rw [mem_derreterColuna] at hr
    obtain ⟨linha, hl, hq, hg, ht⟩ := hr
    obtain ⟨hsent, hq2⟩ := paraNumero_substituirSentinela_eq_some hq
    exact ⟨linha, hl, p, hp, hsent, hq2, hg, ht⟩
  · intro linha hl p hp hbad r hr hchave
    have hdet := registro_chave_determina hgeo (by rw [← hordEq]; exact hord) hl hp
      (by rw [← hreg]; exact hr) hchave.1 hchave.2
    rw [paraNumero_substituirSentinela_of_bad hbad] at hdet
    exact Option.noConfusion hdet

/-- Witness for C2 at the spec's worked-example grid (whose second period
cell is the sentinel and is absent from the single-record output). -/
theorem valores_numericos_spec_witness :
    carregar_tabela_vagas grelhaExemplo 0 1 =
      .ok ([⟨.text "Spain", "2022-Q1", 41 / 10⟩], ["2022-Q1", "2022-Q2"], none) ∧
    grelhaExemplo[0]? = some [.text "geo", .text "2022-Q1", .empty, .text "2022-Q2", .empty] ∧
    ((dadosMantidos grelhaExemplo 1).map
      (fun linha => substituirSentinela (linha.getD 0 .empty))).Nodup ∧
    (["2022-Q1", "2022-Q2"] : List String).Nodup ∧
    ((∀ r ∈ [(⟨.text "Spain", "2022-Q1", 41 / 10⟩ : TidyRecord)],
        ∃ linha ∈ dadosMantidos grelhaExemplo 1,
          ∃ p ∈ colunasValor (montar_nomes_colunas
            [.text "geo", .text "2022-Q1", .empty, .text "2022-Q2", .empty]),
            linha.getD p.1 .empty ≠ .text ":" ∧
            paraNumero (linha.getD p.1 .empty) = some r.taxa_vaga ∧
            r.geo = substituirSentinela (linha.getD 0 .empty) ∧ r.trimestre = p.2) ∧
      (∀ linha ∈ dadosMantidos grelhaExemplo 1,
        ∀ p ∈ colunasValor (montar_nomes_colunas
          [.text "geo", .text "2022-Q1", .empty, .text "2022-Q2", .empty]),
          (linha.getD p.1 .empty = .text ":" ∨ paraNumero (linha.getD p.1 .empty) = none) →
          ∀ r ∈ [(⟨.text "Spain", "2022-Q1", 41 / 10⟩ : TidyRecord)],
            ¬(r.geo = substituirSentinela (linha.getD 0 .empty) ∧ r.trimestre = p.2))) :=
  ⟨rfl, rfl, by decide, by decide,
    @valores_numericos_spec grelhaExemplo 0 1
      [⟨.text "Spain", "2022-Q1", 41 / 10⟩] ["2022-Q1", "2022-Q2"] none
      [.text "geo", .text "2022-Q1", .empty, .text "2022-Q2", .empty]
      rfl rfl (by decide) (by decide)⟩

/-! ### Exclusion decided by the label suffix -/

theorem rotuloValor_eq_true {c : String} (h : rotuloValor c = true) :
    c ≠ "geo" ∧ terminaCom c "_flag" = false := by
  rw [rotuloValor, Bool.and_eq_true, decide_eq_true_eq, Bool.not_eq_true'] at h
  exact h

theorem trimestre_mem_ordem {bruto : List (List Cell)} {lc ld : ℕ}
    {registros : List TidyRecord} {ordem : List String} {area : Option String}
    (hok : carregar_tabela_vagas bruto lc ld = .ok (registros, ordem, area)) :
    ∀ r ∈ registros, r.trimestre ∈ ordem := by
  obtain ⟨cab, -, -, -, hreg, hordEq⟩ := carregar_ok_inv hok
  subst hreg
  subst hordEq
  intro r hr
  rw [List.mem_flatMap] at hr
  obtain ⟨p, hp, hr⟩ := hr
  rw [mem_derreterColuna] at hr
  obtain ⟨linha, -, -, -, ht⟩ := hr
  rw [ht]
  exact List.mem_map_of_mem Prod.snd hp

theorem ordem_rotuloValor {bruto : List (List Cell)} {lc ld : ℕ}
    {registros : List TidyRecord} {ordem : List String} {area : Option String}
    (hok : carregar_tabela_vagas bruto lc ld = .ok (registros, ordem, area)) :
    ∀ c ∈ ordem, rotuloValor c = true := by
  obtain ⟨cab, -, -, -, -, hordEq⟩ := carregar_ok_inv hok
  subst hordEq
  intro c hc
  rw [colunasValor_map_snd, List.mem_filter] at hc
  exact hc.2

/-- C10: a column whose header cell is nonempty text that itself ends in
`"_flag"` is excluded from the value-series set and from PeriodOrder exactly
as a derived flag column would be: its derived label is that very text, the
label does not occur in PeriodOrder, and no output record carries it as its
period — exclusion is decided solely by the string suffix of the derived
label. -/
theorem exclusao_por_sufixo {bruto : List (List Cell)} {lc ld : ℕ}
    {registros : List TidyRecord} {ordem : List String} {area : Option String}
    {cabecalho : List Cell} {j : ℕ} {s : String}
    (hok : carregar_tabela_vagas bruto lc ld = .ok (registros, ordem, area))
    (_hcab : bruto[lc]? = some cabecalho)
    (hj : j ≠ 0) (hjlen : j < cabecalho.length)
    (hcel : cabecalho.getD j .empty = .text s)
    (hsuf : terminaCom s "_flag" = true) :
    (montar_nomes_colunas cabecalho).getD j "" = s ∧
    s ∉ ordem ∧
    ∀ r ∈ registros, r.trimestre ≠ s := by
  have hne : cabecalho ≠ [] := by
    intro hnil
    rw [hnil] at hjlen
    exact absurd hjlen (by simp)
  have hso : s ∉ ordem := by
    intro hs
    have := (rotuloValor_eq_true (ordem_rotuloValor hok s hs)).2
    rw [hsuf] at this
    exact Bool.noConfusion this
  refine ⟨?_, hso, fun r hr ht => hso (ht ▸ trimestre_mem_ordem hok r hr)⟩
  obtain ⟨j2, rfl⟩ := Nat.exists_eq_succ_of_ne_zero hj
  have hget := montar_nomes_colunas_getD_succ cabecalho j2 hjlen
  rw [hcel] at hget
  simpa [Cell.isna, Cell.textForm] using hget

/-- Witness for C10: the grid whose third header cell is the nonempty text
`"extra_flag"`; its numeric data column contributes no records. -/
theorem exclusao_por_sufixo_witness :
    carregar_tabela_vagas grelhaRotuloFlag 0 1 =
      .ok ([⟨.text "A", "P1", 1⟩], ["P1"], none) ∧
    grelhaRotuloFlag[0]? = some [.text "g", .text "P1", .text "extra_flag"] ∧
    (2 : ℕ) ≠ 0 ∧
    2 < ([.text "g", .text "P1", .text "extra_flag"] : List Cell).length ∧
    ([.text "g", .text "P1", .text "extra_flag"] : List Cell).getD 2 .empty =
      .text "extra_flag" ∧
    terminaCom "extra_flag" "_flag" = true ∧
    ((montar_nomes_colunas [.text "g", .text "P1", .text "extra_flag"]).getD 2 "" =
        "extra_flag" ∧
      "extra_flag" ∉ (["P1"] : List String) ∧
      ∀ r ∈ [(⟨.text "A", "P1", 1⟩ : TidyRecord)], r.trimestre ≠ "extra_flag") :=
  ⟨rfl, rfl, by decide, by decide, rfl, by decide,
    @exclusao_por_sufixo grelhaRotuloFlag 0 1 [⟨.text "A", "P1", 1⟩] ["P1"] none
      [.text "g", .text "P1", .text "extra_flag"] 2 "extra_flag"
      rfl rfl (by decide) (by decide) rfl (by decide)⟩

/-! ### The renderer -/

/-- C6: rendering with a country filter disjoint from every entity present in
the tidy records fails with the empty-selection error; no sorted record list
is produced (in the source the exception is raised before any directory or
image file is created). -/
theorem selecao_vazia_spec (dados : List TidyRecord) (ordem paises : List String)
    (hdisj : ∀ r ∈ dados, ∀ p ∈ paises, r.geo ≠ .text p) :
    plotar_taxa_vagas dados ordem paises = .error .nenhumaLinhaEncontrada := by
  have hvazio : dados.filter (fun r => paises.any (fun p => decide (r.geo = .text p))) = [] := by
    rw [List.filter_eq_nil_iff]
    intro r hr h
    rw [List.any_eq_true] at h
    obtain ⟨p, hp, he⟩ := h
    exact hdisj r hr p hp (of_decide_eq_true he)
  simp only [plotar_taxa_vagas, hvazio]
  rfl

/-- Witness for C6: a one-record data set filtered by an absent country. -/
theorem selecao_vazia_spec_witness :
    (∀ r ∈ [(⟨.text "Germany", "P1", 1⟩ : TidyRecord)],
      ∀ p ∈ ["Unknown Country"], r.geo ≠ .text p) ∧
    plotar_taxa_vagas [⟨.text "Germany", "P1", 1⟩] ["P1"] ["Unknown Country"] =
      .error .nenhumaLinhaEncontrada :=
  ⟨by decide,
    selecao_vazia_spec [⟨.text "Germany", "P1", 1⟩] ["P1"] ["Unknown Country"] (by decide)⟩

theorem charListLt_irrefl (a : List Char) : charListLt a a = false := by
  induction a with
  | nil => rfl
  | cons c cs ih => simp [charListLt, ih]

theorem charListLt_trans : ∀ {a b c : List Char}, charListLt a b = true →
    charListLt b c = true → charListLt a c = true
  | [], [], _, h1, _ => by simp [charListLt] at h1
  | [], _ :: _, [], _, h2 => by simp [charListLt] at h2
  | [], _ :: _, _ :: _, _, _ => rfl
  | _ :: _, [], _, h1, _ => by simp [charListLt] at h1
  | _ :: _, _ :: _, [], _, h2 => by simp [charListLt] at h2
  | x :: xs, y :: ys, z :: zs, h1, h2 => by
    simp only [charListLt] at h1 h2 ⊢
    rcases lt_trichotomy x y with hxy | hxy | hxy
    · rcases lt_trichotomy y z with hyz | hyz | hyz
      · rw [if_pos (lt_trans hxy hyz)]
      · subst hyz
        rw [if_pos hxy]
      · rw [if_neg (lt_asymm hyz), if_pos hyz] at h2
        exact absurd h2 (by simp)
    · subst hxy
      rcases lt_trichotomy x z with hxz | hxz | hxz
      · rw [if_pos hxz]
      · subst hxz
        rw [if_neg (lt_irrefl x), if_neg (lt_irrefl x)] at h1 h2 ⊢
        exact charListLt_trans h1 h2
      · rw [if_neg (lt_asymm hxz), if_pos hxz] at h2
        exact absurd h2 (by simp)
    · rw [if_neg (lt_asymm hxy), if_pos hxy] at h1
      exact absurd h1 (by simp)

theorem charListLt_total : ∀ (a b : List Char),
    charListLt a b = true ∨ a = b ∨ charListLt b a = true
  | [], [] => Or.inr (Or.inl rfl)
  | [], _ :: _ => Or.inl rfl
  | _ :: _, [] => Or.inr (Or.inr rfl)
  | x :: xs, y :: ys => by
    rcases lt_trichotomy x y with h | h | h
    · left
      simp [charListLt, if_pos h]
    · subst h
      rcases charListLt_total xs ys with h2 | h2 | h2
      · left
        simp [charListLt, lt_irrefl, h2]
      · subst h2
        right
        left
        rfl
      · right
        right
        simp [charListLt, lt_irrefl, h2]
    · right
      right
      simp [charListLt, if_pos h]

theorem recordeLe_trans (ordem : List String) : ∀ (r1 r2 r3 : TidyRecord),
    recordeLe ordem r1 r2 = true → recordeLe ordem r2 r3 = true →
    recordeLe ordem r1 r3 = true := by
  intro r1 r2 r3 h1 h2
  simp only [recordeLe, Bool.or_eq_true, Bool.and_eq_true, decide_eq_true_eq] at h1 h2 ⊢
  rcases h1 with h1 | ⟨h1e, h1i⟩
  · rcases h2 with h2 | ⟨h2e, h2i⟩
    · exact Or.inl (charListLt_trans h1 h2)
    · rw [← h2e]
      exact Or.inl h1
  · rcases h2 with h2 | ⟨h2e, h2i⟩
    · rw [h1e]
      exact Or.inl h2
    · exact Or.inr ⟨h1e.trans h2e, h1i.trans h2i⟩

theorem recordeLe_total (ordem : List String) : ∀ (r1 r2 : TidyRecord),
    recordeLe ordem r1 r2 = true ∨ recordeLe ordem r2 r1 = true := by
  intro r1 r2
  simp only [recordeLe, Bool.or_eq_true, Bool.and_eq_true, decide_eq_true_eq]
  rcases charListLt_total r1.geo.textForm.data r2.geo.textForm.data with h | h | h
  · exact Or.inl (Or.inl h)
  · have he : r1.geo.textForm = r2.geo.textForm := by
      cases hf1 : r1.geo.textForm
      cases hf2 : r2.geo.textForm
      rw [hf1, hf2] at h
      simp_all
    rcases Nat.le_total (ordem.indexOf r1.trimestre) (ordem.indexOf r2.trimestre) with hi | hi
    · exact Or.inl (Or.inr ⟨he, hi⟩)
    · exact Or.inr (Or.inr ⟨he.symm, hi⟩)
  · exact Or.inr (Or.inl h)

theorem recordeLe_mono {ordem : List String} {r1 r2 : TidyRecord}
    (h : recordeLe ordem r1 r2 = true) (hg : r1.geo = r2.geo) :
    ordem.indexOf r1.trimestre ≤ ordem.indexOf r2.trimestre := by
  rw [recordeLe, Bool.or_eq_true, Bool.and_eq_true, decide_eq_true_eq, decide_eq_true_eq] at h
  rcases h with h | h
  · rw [hg, charListLt_irrefl] at h
    exact Bool.noConfusion h
  · exact h.2

/-- C5: in the record list the renderer hands to the plotting loop, any two
records of the same entity appear ordered by the position of their period
label in PeriodOrder (the original spreadsheet column order), not by any
textual comparison of the labels. -/
theorem ordenacao_por_periodo {dados : List TidyRecord} {ordem paises : List String}
    {saida : List TidyRecord}
    (hok : plotar_taxa_vagas dados ordem paises = .ok saida) :
    List.Pairwise (fun r1 r2 => r1.geo = r2.geo →
      ordem.indexOf r1.trimestre ≤ ordem.indexOf r2.trimestre) saida := by
  simp only [plotar_taxa_vagas] at hok
  split at hok
  · exact absurd hok (by simp)
  · injection hok with h1
    subst h1
    letI : IsTrans TidyRecord (fun r1 r2 => recordeLe ordem r1 r2 = true) :=
      ⟨recordeLe_trans ordem⟩
    letI : IsTotal TidyRecord (fun r1 r2 => recordeLe ordem r1 r2 = true) :=
      ⟨recordeLe_total ordem⟩
    have hsorted := List.sorted_insertionSort
      (fun r1 r2 => recordeLe ordem r1 r2 = true)
      (dados.filter (fun r => paises.any (fun p => decide (r.geo = .text p))))
    exact hsorted.imp (fun h hg => recordeLe_mono h hg)

/-- Witness for C5: three records of two countries, presented out of order. -/
theorem ordenacao_por_periodo_witness :
    plotar_taxa_vagas
        [⟨.text "B", "P2", 4⟩, ⟨.text "A", "P2", 2⟩, ⟨.text "A", "P1", 1⟩]
        ["P1", "P2"] ["A", "B"] =
      .ok [⟨.text "A", "P1", 1⟩, ⟨.text "A", "P2", 2⟩, ⟨.text "B", "P2", 4⟩] ∧
    List.Pairwise (fun r1 r2 => r1.geo = r2.geo →
        (["P1", "P2"] : List String).indexOf r1.trimestre ≤
          (["P1", "P2"] : List String).indexOf r2.trimestre)
      [(⟨.text "A", "P1", 1⟩ : TidyRecord), ⟨.text "A", "P2", 2⟩, ⟨.text "B", "P2", 4⟩] :=
  ⟨rfl,
    @ordenacao_por_periodo
      [⟨.text "B", "P2", 4⟩, ⟨.text "A", "P2", 2⟩, ⟨.text "A", "P1", 1⟩]
      ["P1", "P2"] ["A", "B"]
      [⟨.text "A", "P1", 1⟩, ⟨.text "A", "P2", 2⟩, ⟨.text "B", "P2", 4⟩] rfl⟩

/-! ### Round trip -/

theorem substituirSentinela_of_ne {c : Cell} (h : c ≠ .text ":") :
    substituirSentinela c = c := if_neg h

/-- C7: round trip — on a well-keyed grid (sentinel-replaced entity cells of
kept rows pairwise distinct, period labels pairwise distinct), re-pivoting
the tidy records on (entity, period) recovers the numeric content of every
value-series cell that is not the sentinel `":"` and coerces to a number. -/
theorem ida_e_volta_spec {bruto : List (List Cell)} {lc ld : ℕ}
    {registros : List TidyRecord} {ordem : List String} {area : Option String}
    {cabecalho linha : List Cell} {p : ℕ × String} {q : ℚ}
    (hok : carregar_tabela_vagas bruto lc ld = .ok (registros, ordem, area))
    (hcab : bruto[lc]? = some cabecalho)
    (hgeo : ((dadosMantidos bruto ld).map
      (fun l => substituirSentinela (l.getD 0 .empty))).Nodup)
    (hord : ordem.Nodup)
    (hl : linha ∈ dadosMantidos bruto ld)
    (hgsent : linha.getD 0 .empty ≠ .text ":")
    (hp : p ∈ colunasValor (montar_nomes_colunas cabecalho))
    (hcsent : linha.getD p.1 .empty ≠ .text ":")
    (hq : paraNumero (linha.getD p.1 .empty) = some q) :
    rePivot registros (linha.getD 0 .empty) p.2 = some q := by
  obtain ⟨cab, hcab2, -, -, hreg, hordEq⟩ := carregar_ok_inv hok
  rw [hcab2] at hcab
  injection hcab with hcab
  subst hcab
  have hordNodup : ((colunasValor (montar_nomes_colunas cab)).map Prod.snd).Nodup := by
    rw [← hordEq]
    exact hord
  have hr0 : (⟨linha.getD 0 .empty, p.2, q⟩ : TidyRecord) ∈ registros := by
    rw [hreg, List.mem_flatMap]
    refine ⟨p, hp, ?_⟩
    rw [mem_derreterColuna]
    exact ⟨linha, hl, by rw [substituirSentinela_of_ne hcsent]; exact hq,
      (substituirSentinela_of_ne hgsent).symm, rfl⟩
  rw [rePivot]
  cases hfind : registros.find?
      (fun r => decide (r.geo = linha.getD 0 .empty) && decide (r.trimestre = p.2)) with
  | none =>
    rw [List.find?_eq_none] at hfind
    exact absurd (by simp : (decide ((linha.getD 0 .empty : Cell) = linha.getD 0 .empty) &&
      decide ((p.2 : String) = p.2)) = true) (by simpa using hfind _ hr0)
  | some r1 =>
    have hpred := List.find?_some hfind
    rw [Bool.and_eq_true, decide_eq_true_eq, decide_eq_true_eq] at hpred
    have hr1 : r1 ∈ registros := List.mem_of_find?_eq_some hfind
    rw [hreg] at hr1
    have hdet := registro_chave_determina hgeo hordNodup hl hp hr1
      (by rw [substituirSentinela_of_ne hgsent]; exact hpred.1) hpred.2
    rw [substituirSentinela_of_ne hcsent, hq] at hdet
    injection hdet with hdet
    rw [Option.map_some']
    rw [← hdet]

/-- Witness for C7 at the spec's worked-example grid: the numeric cell of
the "2022-Q1" column is recovered by the wide-form lookup. -/
theorem ida_e_volta_spec_witness :
    carregar_tabela_vagas grelhaExemplo 0 1 =
      .ok ([⟨.text "Spain", "2022-Q1", 41 / 10⟩], ["2022-Q1", "2022-Q2"], none) ∧
    grelhaExemplo[0]? = some [.text "geo", .text "2022-Q1", .empty, .text "2022-Q2", .empty] ∧
    ((dadosMantidos grelhaExemplo 1).map
      (fun l => substituirSentinela (l.getD 0 .empty))).Nodup ∧
    (["2022-Q1", "2022-Q2"] : List String).Nodup ∧
    [.text "Spain", .num (41 / 10), .text "u", .text ":", .text "u"] ∈
      dadosMantidos grelhaExemplo 1 ∧
    ([.text "Spain", .num (41 / 10), .text "u", .text ":", .text "u"] :
      List Cell).getD 0 .empty ≠ .text ":" ∧
    ((1 : ℕ), "2022-Q1") ∈ colunasValor (montar_nomes_colunas
      [.text "geo", .text "2022-Q1", .empty, .text "2022-Q2", .empty]) ∧
    ([.text "Spain", .num (41 / 10), .text "u", .text ":", .text "u"] :
      List Cell).getD 1 .empty ≠ .text ":" ∧
    paraNumero (([.text "Spain", .num (41 / 10), .text "u", .text ":", .text "u"] :
      List Cell).getD 1 .empty) = some (41 / 10) ∧
    rePivot [⟨.text "Spain", "2022-Q1", 41 / 10⟩]
      (([.text "Spain", .num (41 / 10), .text "u", .text ":", .text "u"] :
        List Cell).getD 0 .empty) "2022-Q1" = some (41 / 10) :=
  ⟨rfl, rfl, by decide, by decide, by exact List.mem_singleton.mpr rfl, by decide,
    by exact List.mem_cons_self _ _, by decide, rfl,
    @ida_e_volta_spec grelhaExemplo 0 1 [⟨.text "Spain", "2022-Q1", 41 / 10⟩]
      ["2022-Q1", "2022-Q2"] none
      [.text "geo", .text "2022-Q1", .empty, .text "2022-Q2", .empty]
      [.text "Spain", .num (41 / 10), .text "u", .text ":", .text "u"]
      (1, "2022-Q1") (41 / 10)
      rfl rfl (by decide) (by decide) (by exact List.mem_singleton.mpr rfl) (by decide)
      (by exact List.mem_cons_self _ _) (by decide) rfl⟩

/-! ### Failure conditions of the loader -/

/-- Counterexample to C8 as stated: with the header row in bounds, a data
start index past the last row (5, on a 3-row grid) does not raise any
error — the load succeeds with an empty record set; likewise a one-column
grid (no value series at all) loads successfully with an empty PeriodOrder
instead of failing. -/
theorem falhas_carregamento_contraexemplo :
    (grelhaDoisPaises.length ≤ 5 ∧
      carregar_tabela_vagas grelhaDoisPaises 0 5 = .ok ([], ["P1", "P2"], none)) ∧
    carregar_tabela_vagas grelhaUmaColuna 0 1 = .ok ([], [], none) :=
  ⟨⟨by decide, rfl⟩, rfl⟩

theorem carregar_sem_cabecalho {bruto : List (List Cell)} {lc : ℕ} (ld : ℕ)
    (h : bruto[lc]? = none) :
    carregar_tabela_vagas bruto lc ld = .error .cabecalhoForaDosLimites := by
  unfold carregar_tabela_vagas
  rw [h]

theorem carregar_cabecalho_vazio {bruto : List (List Cell)} {lc : ℕ} (ld : ℕ)
    (h : bruto[lc]? = some []) :
    carregar_tabela_vagas bruto lc ld = .error .colunaGeoAusente := by
  unfold carregar_tabela_vagas
  rw [h]
  rfl

theorem carregar_cabecalho_cons {bruto : List (List Cell)} {lc : ℕ} (ld : ℕ)
    {c : Cell} {resto : List Cell} (h : bruto[lc]? = some (c :: resto)) :
    carregar_tabela_vagas bruto lc ld =
      (if ((colunasValor (montar_nomes_colunas (c :: resto))).map Prod.snd).Nodup then
        .ok ((colunasValor (montar_nomes_colunas (c :: resto))).flatMap
               (derreterColuna (dadosMantidos bruto ld)),
             (colunasValor (montar_nomes_colunas (c :: resto))).map Prod.snd,
             areaTrabalho bruto)
      else .error .categoriasDuplicadas) := by
  unfold carregar_tabela_vagas
  rw [h]
  rfl

/-- C8 (amended): the loader's real failure conditions.  A header row index
out of the grid's row bounds raises (the pandas `IndexError` from `iloc`,
the spec's `LayoutError`); a header row with no cells raises (the `"geo"`
column is missing, a `KeyError`); duplicate value-column labels raise (the
`ValueError` of the `pd.Categorical` construction, which runs before the
load returns).  By contrast — see the counterexample — a data start index
out of bounds or a data region with fewer than 2 columns raises nothing;
and every in-bounds, nonempty header whose derived labels are pairwise
distinct loads successfully. -/
theorem falhas_carregamento_spec (bruto : List (List Cell)) (lc ld : ℕ) :
    (bruto[lc]? = none →
      carregar_tabela_vagas bruto lc ld = .error .cabecalhoForaDosLimites) ∧
    (bruto[lc]? = some [] →
      carregar_tabela_vagas bruto lc ld = .error .colunaGeoAusente) ∧
    (∀ cabecalho, bruto[lc]? = some cabecalho →
      ¬ ((colunasValor (montar_nomes_colunas cabecalho)).map Prod.snd).Nodup →
      carregar_tabela_vagas bruto lc ld = .error .categoriasDuplicadas) ∧
    (∀ cabecalho, bruto[lc]? = some cabecalho → cabecalho ≠ [] →
      (montar_nomes_colunas cabecalho).Nodup →
      ∃ registros ordem area,
        carregar_tabela_vagas bruto lc ld = .ok (registros, ordem, area)) := by
  refine ⟨carregar_sem_cabecalho ld, carregar_cabecalho_vazio ld, ?_, ?_⟩
  · intro cabecalho hcab hdup
    cases cabecalho with
    | nil => exact absurd List.nodup_nil hdup
    | cons c resto =>
      rw [carregar_cabecalho_cons ld hcab, if_neg hdup]
  · intro cabecalho hcab hne hnodup
    cases cabecalho with
    | nil => exact absurd rfl hne
    | cons c resto =>
      have hnodup2 :
          ((colunasValor (montar_nomes_colunas (c :: resto))).map Prod.snd).Nodup := by
        rw [colunasValor_map_snd]
        exact hnodup.filter rotuloValor
      rw [carregar_cabecalho_cons ld hcab, if_pos hnodup2]
      exact ⟨_, _, _, rfl⟩

/-- Witness for the amended C8: the duplicate-label grid trips the
categorical-uniqueness check, so the loader fails there. -/
theorem falhas_carregamento_spec_witness :
    grelhaDuplicada[0]? = some [.text "geo", .text "P1", .text "P1"] ∧
    ¬ ((colunasValor (montar_nomes_colunas
        [.text "geo", .text "P1", .text "P1"])).map Prod.snd).Nodup ∧
    carregar_tabela_vagas grelhaDuplicada 0 1 = .error .categoriasDuplicadas :=
  ⟨rfl, by decide,
    (falhas_carregamento_spec grelhaDuplicada 0 1).2.2.1
      [.text "geo", .text "P1", .text "P1"] rfl (by decide)⟩

/-! ### Order of the written records -/

theorem trimestre_of_mem_derreterColuna {dados : List (List Cell)} {p : ℕ × String}
    {r : TidyRecord} (hr : r ∈ derreterColuna dados p) : r.trimestre = p.2 := by
  rw [mem_derreterColuna] at hr
  obtain ⟨linha, -, -, -, ht⟩ := hr
  exact ht

theorem pairwise_indexOf_le (ls : List String) (h : ls.Nodup) :
    List.Pairwise (fun a b => ls.indexOf a ≤ ls.indexOf b) ls := by
  induction ls with
  | nil => exact List.Pairwise.nil
  | cons a t ih =>
    rw [List.nodup_cons] at h
    refine List.Pairwise.cons (fun b hb => ?_) ?_
    · rw [List.indexOf_cons_self]
      exact Nat.zero_le _
    · refine (ih h.2).imp_of_mem (fun hx hy hxy => ?_)
      rename_i x y
      have hax : a ≠ x := fun he => h.1 (by rw [he]; exact hx)
      have hay : a ≠ y := fun he => h.1 (by rw [he]; exact hy)
      rw [List.indexOf_cons_ne t hax, List.indexOf_cons_ne t hay]
      exact Nat.succ_le_succ hxy

theorem pairwise_blocos {dados : List (List Cell)} {cv : List (ℕ × String)}
    {rank : String → ℕ}
    (hcv : List.Pairwise (fun p1 p2 => rank p1.2 ≤ rank p2.2) cv) :
    List.Pairwise (fun r1 r2 => rank r1.trimestre ≤ rank r2.trimestre)
      (cv.flatMap (derreterColuna dados)) := by
  induction cv with
  | nil => exact List.Pairwise.nil
  | cons p cv ih =>
    rw [List.pairwise_cons] at hcv
    rw [List.flatMap_cons, List.pairwise_append]
    refine ⟨List.pairwise_of_forall_mem_list (fun a ha b hb => ?_), ih hcv.2,
      fun a ha b hb => ?_⟩
    · rw [trimestre_of_mem_derreterColuna ha, trimestre_of_mem_derreterColuna hb]
    · rw [trimestre_of_mem_derreterColuna ha]
      rw [List.mem_flatMap] at hb
      obtain ⟨p2, hp2, hb⟩ := hb
      rw [trimestre_of_mem_derreterColuna hb]
      exact hcv.1 p2 hp2

theorem filter_trimestre_flatMap {dados : List (List Cell)} {cv : List (ℕ × String)}
    {p : ℕ × String} (hnodup : (cv.map Prod.snd).Nodup) (hp : p ∈ cv) :
    (cv.flatMap (derreterColuna dados)).filter (fun r => decide (r.trimestre = p.2)) =
      derreterColuna dados p := by
  rw [List.filter_flatMap]
  induction cv with
  | nil => exact absurd hp (List.not_mem_nil p)
  | cons p1 cv ih =>
    rw [List.map_cons, List.nodup_cons] at hnodup
    rw [List.flatMap_cons]
    rcases List.mem_cons.mp hp with rfl | hp2
    · have h1 : (derreterColuna dados p).filter (fun r => decide (r.trimestre = p.2)) =
          derreterColuna dados p := by
        rw [List.filter_eq_self]
        intro r hr
        exact decide_eq_true (trimestre_of_mem_derreterColuna hr)
      have h2 : (cv.flatMap fun p2 => (derreterColuna dados p2).filter
          (fun r => decide (r.trimestre = p.2))) = [] := by
        rw [List.flatMap_eq_nil_iff]
        intro p2 hp2
        rw [List.filter_eq_nil_iff]
        intro r hr hdec
        rw [decide_eq_true_eq] at hdec
        refine hnodup.1 ?_
        rw [← (trimestre_of_mem_derreterColuna hr).symm.trans hdec]
        exact List.mem_map_of_mem Prod.snd hp2
      rw [h1, h2, List.append_nil]
    · have hne : p1.2 ≠ p.2 := by
        intro he
        exact hnodup.1 (he ▸ List.mem_map_of_mem Prod.snd hp2)
      have h1 : (derreterColuna dados p1).filter (fun r => decide (r.trimestre = p.2)) = [] := by
        rw [List.filter_eq_nil_iff]
        intro r hr hdec
        rw [decide_eq_true_eq] at hdec
        exact hne ((trimestre_of_mem_derreterColuna hr).symm.trans hdec)
      rw [h1, List.nil_append]
      exact ih hnodup.2 hp2

/-- Counterexample to C9 as stated: on a two-entity, two-period grid the
tidy output — and hence the CSV, written in list order — interleaves the
entities (A, B, A, B), so the records of entity A are not contiguous and
the order is not entity-major. -/
theorem ordem_csv_contraexemplo :
    carregar_tabela_vagas grelhaDoisPaises 0 1 =
      .ok ([⟨.text "A", "P1", 1⟩, ⟨.text "B", "P1", 3⟩,
            ⟨.text "A", "P2", 2⟩, ⟨.text "B", "P2", 4⟩], ["P1", "P2"], none) ∧
    ¬ OrdemEntidadePeriodo
        [⟨.text "A", "P1", 1⟩, ⟨.text "B", "P1", 3⟩,
         ⟨.text "A", "P2", 2⟩, ⟨.text "B", "P2", 4⟩]
        ["P1", "P2"] :=
  ⟨rfl, by unfold OrdemEntidadePeriodo; decide⟩

/-- C9 (amended): the record list of a successful load — the exact order in
which `to_csv` writes the CSV rows — is PeriodOrder-major, not
entity-major: the positions of the period labels in PeriodOrder are
nondecreasing along the list, and the records carrying one value column's
label are exactly the melt of that column over the kept rows in source-row
order.  (Stated for pairwise-distinct period labels; with duplicate labels
the source itself fails at the `pd.Categorical` construction.) -/
theorem ordem_csv_spec {bruto : List (List Cell)} {lc ld : ℕ}
    {registros : List TidyRecord} {ordem : List String} {area : Option String}
    {cabecalho : List Cell}
    (hok : carregar_tabela_vagas bruto lc ld = .ok (registros, ordem, area))
    (hcab : bruto[lc]? = some cabecalho)
    (hord : ordem.Nodup) :
    List.Pairwise (fun r1 r2 =>
      ordem.indexOf r1.trimestre ≤ ordem.indexOf r2.trimestre) registros ∧
    ∀ p ∈ colunasValor (montar_nomes_colunas cabecalho),
      registros.filter (fun r => decide (r.trimestre = p.2)) =
        derreterColuna (dadosMantidos bruto ld) p := by
  obtain ⟨cab, hcab2, -, -, hreg, hordEq⟩ := carregar_ok_inv hok
  rw [hcab2] at hcab
  injection hcab with hcab
  subst hcab
  subst hordEq
  subst hreg
  constructor
  · refine @pairwise_blocos (dadosMantidos bruto ld) (colunasValor (montar_nomes_colunas cab))
      (fun t => List.indexOf t
        (List.map Prod.snd (colunasValor (montar_nomes_colunas cab)))) ?_
    have hp := pairwise_indexOf_le _ hord
    rw [List.pairwise_map] at hp
    exact hp
  · intro p hp
    exact filter_trimestre_flatMap hord hp

/-- Witness for the amended C9 at the two-entity grid: periods ascend along
the output and each period block is one column's melt. -/
theorem ordem_csv_spec_witness :
    carregar_tabela_vagas grelhaDoisPaises 0 1 =
      .ok ([⟨.text "A", "P1", 1⟩, ⟨.text "B", "P1", 3⟩,
            ⟨.text "A", "P2", 2⟩, ⟨.text "B", "P2", 4⟩], ["P1", "P2"], none) ∧
    grelhaDoisPaises[0]? = some [.text "g", .text "P1", .text "P2"] ∧
    (["P1", "P2"] : List String).Nodup ∧
    (List.Pairwise (fun r1 r2 =>
        (["P1", "P2"] : List String).indexOf r1.trimestre ≤
          (["P1", "P2"] : List String).indexOf r2.trimestre)
      [(⟨.text "A", "P1", 1⟩ : TidyRecord), ⟨.text "B", "P1", 3⟩,
       ⟨.text "A", "P2", 2⟩, ⟨.text "B", "P2", 4⟩] ∧
     ∀ p ∈ colunasValor (montar_nomes_colunas [.text "g", .text "P1", .text "P2"]),
       ([(⟨.text "A", "P1", 1⟩ : TidyRecord), ⟨.text "B", "P1", 3⟩,
         ⟨.text "A", "P2", 2⟩, ⟨.text "B", "P2", 4⟩]).filter
           (fun r => decide (r.trimestre = p.2)) =
         derreterColuna (dadosMantidos grelhaDoisPaises 1) p) :=
  ⟨rfl, rfl, by decide,
    @ordem_csv_spec grelhaDoisPaises 0 1
      [⟨.text "A", "P1", 1⟩, ⟨.text "B", "P1", 3⟩,
       ⟨.text "A", "P2", 2⟩, ⟨.text "B", "P2", 4⟩]
      ["P1", "P2"] none [.text "g", .text "P1", .text "P2"]
      rfl rfl (by decide)⟩
